import Mathlib

/-!
r2upload: the `/upload` handler and the startup sequence of `main.go`

A shallow embedding of `src/main.go`.  The handler closure registered for
`/upload` becomes the function `uploadHandler`; the effects it has on the
outside world (the response writer, the logger, the request body, the storage
client) are recorded in an `Outcome`.  The startup part of `main` becomes the
function `main`, which returns the sequence of startup events.

Go library calls are embedded by their behaviour:
* `http.Header.Get` looks the canonical form of the key up in the header map
  and returns the first value, or `""`;
* `io.ReadAll` calls `Read` until a call returns a non-nil error and turns
  `io.EOF` into a nil error;
* `http.Error` sets the plain-text headers, calls `WriteHeader` and writes the
  message with `fmt.Fprintln`, that is followed by a newline;
* `log.Fatalf` logs and exits the process.

`NewR2` and `(*R2).Upload` are not defined in `main.go`; they are parameters.
-/

namespace R2Upload

/-! ## Go values -/

/-- Request payload bytes. -/
abbrev Bytes := List UInt8

/-- A non-nil Go `error` value: the sentinel `io.EOF`, or any other error,
given by its message. `io.EOF` is recognised by identity (`err == EOF`), so an
unrelated error whose message happens to be `EOF` is `other "EOF"`. -/
inductive GoError where
  | EOF : GoError
  | other (msg : String) : GoError
  deriving DecidableEq, Repr

/-- The method `Error()` of an error value. -/
def GoError.Error : GoError → String
  | .EOF => "EOF"
  | .other msg => msg

/-- A `context.Context`, as far as the handler is concerned an opaque token it
passes from the request on to the storage client. -/
structure Context where
  id : Nat
  deriving DecidableEq, Repr

/-! ## `http.Header` -/

/-- The map `map[string][]string` of `http.Header`: key, values. -/
abbrev Header := List (String × List String)

/-- ASCII letter tests and conversions of `textproto`. -/
def isLowerAscii (c : Char) : Bool := decide (97 ≤ c.toNat) && decide (c.toNat ≤ 122)

def isUpperAscii (c : Char) : Bool := decide (65 ≤ c.toNat) && decide (c.toNat ≤ 90)

def isDigitAscii (c : Char) : Bool := decide (48 ≤ c.toNat) && decide (c.toNat ≤ 57)

def toUpperAscii (c : Char) : Char :=
  if isLowerAscii c then Char.ofNat (c.toNat - 32) else c

def toLowerAscii (c : Char) : Char :=
  if isUpperAscii c then Char.ofNat (c.toNat + 32) else c

/-- Membership in the token characters of a header field name
(`validHeaderFieldByte`). -/
def validHeaderFieldByte (c : Char) : Bool :=
  isLowerAscii c || isUpperAscii c || isDigitAscii c ||
    "!#$%&*+-.^_|~".toList.contains c || c.toNat = 39 || c.toNat = 96

/-- The letter-case pass of `canonicalMIMEHeaderKey`: the first letter and each
letter after a hyphen is upper-cased, every other letter lower-cased. -/
def canonicalCase : Bool → List Char → List Char
  | _, [] => []
  | upper, c :: cs =>
    (if upper then toUpperAscii c else toLowerAscii c) :: canonicalCase (c = '-') cs

/-- `textproto.CanonicalMIMEHeaderKey`: a key with a character that is not a
token character is returned unchanged. -/
def CanonicalMIMEHeaderKey (s : String) : String :=
  if s.toList.all validHeaderFieldByte then String.mk (canonicalCase true s.toList) else s

/-- The map access `h[key]`: the values stored under `key`, `nil` if none. -/
def Header.values : Header → String → List String
  | [], _ => []
  | (k, vs) :: rest, key => if k = key then vs else Header.values rest key

/-- `Header.Get`: the first value under the canonical form of `key`, or `""`. -/
def Header.Get (h : Header) (key : String) : String :=
  match Header.values h (CanonicalMIMEHeaderKey key) with
  | [] => ""
  | v :: _ => v

/-! ## Request bodies and `io.ReadAll` -/

/-- An `io.Reader`, given by what its successive `Read` calls return up to and
including the first call that returns a non-nil error: `chunks` are the byte
slices of the calls that return a nil error, `last` the bytes of the call that
returns the error `err` (`io.EOF` at the end of the stream). A reader whose
`Read` never returns an error, on which `io.ReadAll` does not return, is not
represented. -/
structure Reader where
  chunks : List Bytes
  last : Bytes
  err : GoError
  deriving DecidableEq, Repr

/-- The loop of `io.ReadAll`: `b` is the buffer filled so far, `n` the number
of `Read` calls made.  A read with a nil error appends and continues; the read
with the error appends, ends the loop, and `io.EOF` is reported as nil. -/
def ReadAll.loop (b : Bytes) (n : Nat) (last : Bytes) (err : GoError) :
    List Bytes → Bytes × Option GoError × Nat
  | [] => (b ++ last, (if err = GoError.EOF then none else some err), n + 1)
  | c :: cs => ReadAll.loop (b ++ c) (n + 1) last err cs

/-- `io.ReadAll`: the bytes read, the error (nil for a stream read to its
end), and the number of `Read` calls made. -/
def ReadAll (r : Reader) : Bytes × Option GoError × Nat :=
  ReadAll.loop [] 0 r.last r.err r.chunks

/-! ## Requests, response writer, logger, storage client -/

/-- The fields of `*http.Request` the handler uses. `Body = none` is a nil
`r.Body`. -/
structure Request where
  Method : String
  Header : Header
  Body : Option Reader
  Ctx : Context
  deriving Repr

/-- A recording `http.ResponseWriter`: the header fields set, the status codes
of the `WriteHeader` calls in order, and the body text written. -/
structure ResponseWriter where
  header : List (String × String)
  codes : List Nat
  body : String
  deriving DecidableEq, Repr

/-- A fresh response writer. -/
def ResponseWriter.new : ResponseWriter := ⟨[], [], ""⟩

/-- `w.WriteHeader(code)`. -/
def ResponseWriter.WriteHeader (w : ResponseWriter) (code : Nat) : ResponseWriter :=
  ⟨w.header, w.codes ++ [code], w.body⟩

/-- `h.Set(key, value)` on the response header: the value replaces what was
stored under the key. -/
def ResponseWriter.Set (w : ResponseWriter) (key value : String) : ResponseWriter :=
  ⟨(w.header.filter (fun kv => kv.1 ≠ key)) ++ [(key, value)], w.codes, w.body⟩

/-- `h.Del(key)` on the response header. -/
def ResponseWriter.Del (w : ResponseWriter) (key : String) : ResponseWriter :=
  ⟨w.header.filter (fun kv => kv.1 ≠ key), w.codes, w.body⟩

/-- `fmt.Fprintln(w, text)`: the text and a newline. -/
def ResponseWriter.Fprintln (w : ResponseWriter) (text : String) : ResponseWriter :=
  ⟨w.header, w.codes, w.body ++ text ++ "\n"⟩

/-- `http.Error(w, error, code)`. -/
def httpError (w : ResponseWriter) (error : String) (code : Nat) : ResponseWriter :=
  (((((w.Del "Content-Length").Set "Content-Type" "text/plain; charset=utf-8").Set
    "X-Content-Type-Options" "nosniff").WriteHeader code).Fprintln error)

def StatusCreated : Nat := 201

def StatusBadRequest : Nat := 400

def StatusMethodNotAllowed : Nat := 405

def StatusInternalServerError : Nat := 500

def MethodPost : String := "POST"

/-- A log line: level and formatted message. -/
inductive LogEntry where
  | info (msg : String) : LogEntry
  | error (msg : String) : LogEntry
  | fatal (msg : String) : LogEntry
  deriving DecidableEq, Repr

/-- One call `r2.Upload(ctx, key, data)`. -/
structure UploadCall where
  ctx : Context
  key : String
  data : Bytes
  deriving DecidableEq, Repr

/-- The storage client `r2` as the handler sees it: the method `Upload`, which
acts on the state `σ` of the storage backend and returns an error or nil. -/
structure R2 (σ : Type) where
  Upload : Context → String → Bytes → σ → Option GoError × σ

/-- What one run of the handler did: the response written, the log lines, the
number of `Read` calls made on the request body, the `Upload` calls made, and
the state of the storage backend afterwards. -/
structure Outcome (σ : Type) where
  w : ResponseWriter
  logs : List LogEntry
  reads : Nat
  uploads : List UploadCall
  store : σ

/-! ## The `/upload` handler (main.go, lines 46 to 85) -/

/-- The handler function registered for `/upload`. -/
def uploadHandler {σ : Type} (r2 : R2 σ) (w : ResponseWriter) (r : Request) (s : σ) :
    Outcome σ :=
  if r.Method ≠ MethodPost then
    ⟨httpError w "Method not allowed" StatusMethodNotAllowed,
      [LogEntry.error ("Method not allowed: " ++ r.Method)], 0, [], s⟩
  else
    let filename := r.Header.Get "x-file-name"
    if filename = "" then
      ⟨httpError w "Missing x-file-name header" StatusBadRequest,
        [LogEntry.error "Missing x-file-name header"], 0, [], s⟩
    else
      match r.Body with
      | none =>
        ⟨httpError w "Missing request body" StatusBadRequest,
          [LogEntry.error "Missing request body"], 0, [], s⟩
      | some body =>
        match ReadAll body with
        | (_, some err, n) =>
          ⟨httpError w ("Error reading request body: " ++ err.Error)
              StatusInternalServerError,
            [LogEntry.error ("Error reading request body: " ++ err.Error)], n, [], s⟩
        | (b, none, n) =>
          match r2.Upload r.Ctx filename b s with
          | (some err, s1) =>
            ⟨httpError w ("Error uploading media: " ++ err.Error)
                StatusInternalServerError,
              [LogEntry.info ("Uploading " ++ filename),
                LogEntry.error ("Error uploading media: " ++ err.Error)],
              n, [⟨r.Ctx, filename, b⟩], s1⟩
          | (none, s1) =>
            ⟨w.WriteHeader StatusCreated, [LogEntry.info ("Uploading " ++ filename)],
              n, [⟨r.Ctx, filename, b⟩], s1⟩

/-- The handler run on a fresh response writer, as the HTTP server runs it. -/
def serveUpload {σ : Type} (r2 : R2 σ) (r : Request) (s : σ) : Outcome σ :=
  uploadHandler r2 ResponseWriter.new r s

/-! ## Startup (main.go, lines 15 to 43 and 87 to 90) -/

/-- The struct `appConfig`. -/
structure appConfig where
  Bind : String
  R2AccountID : String
  R2AccessKeyID : String
  R2AccessKeySecret : String
  R2Bucket : String
  deriving DecidableEq, Repr

/-- What `main` does, in order. -/
inductive StartupEvent where
  | log (entry : LogEntry) : StartupEvent
  | newR2 (accountID accessKeyID accessKeySecret bucket : String) : StartupEvent
  | handleFunc (pattern : String) : StartupEvent
  | listenAndServe (addr : String) : StartupEvent
  | exit (code : Nat) : StartupEvent
  deriving DecidableEq, Repr

/-- `log.Fatalf`: the log line, then `os.Exit(1)`. -/
def Fatalf (msg : String) : List StartupEvent :=
  [StartupEvent.log (LogEntry.fatal msg), StartupEvent.exit 1]

/-- The function `main`. `parsed` is what `flags.Parse(&cfg)` yields (the
filled configuration or an error), `NewR2` the constructor of the storage
client, `listen` the error `http.ListenAndServe` returns, `none` for a server
that keeps serving. -/
def main {ρ : Type} (parsed : Except GoError appConfig)
    (NewR2 : String → String → String → String → Except GoError ρ)
    (listen : String → Option GoError) : List StartupEvent :=
  StartupEvent.log (LogEntry.info "Starting...") ::
  match parsed with
  | .error err => Fatalf ("Error parsing flags: " ++ err.Error)
  | .ok cfg =>
    StartupEvent.newR2 cfg.R2AccountID cfg.R2AccessKeyID cfg.R2AccessKeySecret cfg.R2Bucket ::
    match NewR2 cfg.R2AccountID cfg.R2AccessKeyID cfg.R2AccessKeySecret cfg.R2Bucket with
    | .error err => Fatalf ("Error creating R2: " ++ err.Error)
    | .ok _ =>
      StartupEvent.handleFunc "/upload" ::
      StartupEvent.log (LogEntry.info ("Listening on " ++ cfg.Bind)) ::
      StartupEvent.listenAndServe cfg.Bind ::
      match listen cfg.Bind with
      | some err => Fatalf ("Error starting server: " ++ err.Error)
      | none => []

/-! ## Concrete collaborators for the scenarios -/

/-- The bytes of the stream a reader delivers, in order. -/
def Reader.bytes (r : Reader) : Bytes := r.chunks.flatten ++ r.last

/-- Text containment: `msg` occurs in `body`. -/
def containsText (body msg : String) : Prop := ∃ pre post : String, body = pre ++ msg ++ post

/-- The state of an in-memory bucket: key, object. -/
abbrev Bucket := List (String × Bytes)

/-- A storage client that keeps the objects in memory: `Upload` creates or
overwrites the object at the key and returns nil. -/
def memoryR2 : R2 Bucket :=
  ⟨fun _ key data s => (none, (key, data) :: s.filter (fun kv => kv.1 ≠ key))⟩

/-- A storage client whose `Upload` fails with `err` and stores nothing. -/
def failingR2 (err : GoError) : R2 Bucket := ⟨fun _ _ _ s => (some err, s)⟩

/-- The configuration `flags.Parse` yields when no flag and no environment
variable is set: the default bind address and empty credentials. -/
def defaultConfig : appConfig := ⟨"localhost:8789", "", "", "", ""⟩

/-- Whether one of the four storage credentials of a configuration is the
empty string. -/
def appConfig.hasEmptyCredential (cfg : appConfig) : Bool :=
  cfg.R2AccountID = "" || cfg.R2AccessKeyID = "" || cfg.R2AccessKeySecret = "" ||
    cfg.R2Bucket = ""

/-- Whether a startup event is a call of `NewR2`. -/
def StartupEvent.isNewR2 : StartupEvent → Bool
  | .newR2 _ _ _ _ => true
  | _ => false

/-- Whether a startup event is a call of `NewR2` with an empty credential. -/
def StartupEvent.isNewR2WithEmptyCredential : StartupEvent → Bool
  | .newR2 a b c d => a = "" || b = "" || c = "" || d = ""
  | _ => false

/-! ## Library lemmas -/

theorem canonical_file_name_key : CanonicalMIMEHeaderKey "x-file-name" = "X-File-Name" := by
  decide

theorem ReadAll_loop_eq (b : Bytes) (n : Nat) (last : Bytes) (err : GoError)
    (cs : List Bytes) :
    ReadAll.loop b n last err cs =
      (b ++ cs.flatten ++ last, (if err = GoError.EOF then none else some err),
        n + cs.length + 1) := by
  induction cs generalizing b n with
  | nil => simp [ReadAll.loop]
  | cons c cs ih =>
    simp only [ReadAll.loop, ih, List.flatten_cons, List.length_cons, List.append_assoc]
    have h : n + 1 + cs.length + 1 = n + (cs.length + 1) + 1 := by omega
    rw [h]

/-- `io.ReadAll` returns exactly the bytes of the stream, and a nil error
exactly for a stream that ends with `io.EOF`. -/
theorem ReadAll_eq (r : Reader) :
    ReadAll r =
      (r.bytes, (if r.err = GoError.EOF then none else some r.err), r.chunks.length + 1) := by
  simp [ReadAll, ReadAll_loop_eq, Reader.bytes]

theorem Get_eq_empty_iff (h : Header) :
    Header.Get h "x-file-name" = "" ↔
      Header.values h "X-File-Name" = [] ∨ ∃ vs, Header.values h "X-File-Name" = "" :: vs := by
  unfold Header.Get
  rw [canonical_file_name_key]
  cases hv : Header.values h "X-File-Name" with
  | nil => simp
  | cons v vs => simp

/-! ## The handler, path by path -/

theorem handler_not_post {σ : Type} (r2 : R2 σ) (w : ResponseWriter) (r : Request) (s : σ)
    (hM : r.Method ≠ "POST") :
    uploadHandler r2 w r s =
      ⟨httpError w "Method not allowed" 405,
        [LogEntry.error ("Method not allowed: " ++ r.Method)], 0, [], s⟩ := by
  simp [uploadHandler, MethodPost, StatusMethodNotAllowed, hM]

theorem handler_no_key {σ : Type} (r2 : R2 σ) (w : ResponseWriter) (r : Request) (s : σ)
    (hM : r.Method = "POST") (hK : r.Header.Get "x-file-name" = "") :
    uploadHandler r2 w r s =
      ⟨httpError w "Missing x-file-name header" 400,
        [LogEntry.error "Missing x-file-name header"], 0, [], s⟩ := by
  simp [uploadHandler, MethodPost, StatusBadRequest, hM, hK]

theorem handler_no_body {σ : Type} (r2 : R2 σ) (w : ResponseWriter) (r : Request) (s : σ)
    (hM : r.Method = "POST") (hK : r.Header.Get "x-file-name" ≠ "") (hB : r.Body = none) :
    uploadHandler r2 w r s =
      ⟨httpError w "Missing request body" 400,
        [LogEntry.error "Missing request body"], 0, [], s⟩ := by
  simp [uploadHandler, MethodPost, StatusBadRequest, hM, hK, hB]

theorem handler_read_error {σ : Type} (r2 : R2 σ) (w : ResponseWriter) (r : Request) (s : σ)
    (body : Reader)
    (hM : r.Method = "POST") (hK : r.Header.Get "x-file-name" ≠ "")
    (hB : r.Body = some body) (hE : body.err ≠ GoError.EOF) :
    uploadHandler r2 w r s =
      ⟨httpError w ("Error reading request body: " ++ body.err.Error) 500,
        [LogEntry.error ("Error reading request body: " ++ body.err.Error)],
        body.chunks.length + 1, [], s⟩ := by
  simp [uploadHandler, MethodPost, StatusInternalServerError, hM, hK, hB, ReadAll_eq, hE]

theorem handler_upload_error {σ : Type} (r2 : R2 σ) (w : ResponseWriter) (r : Request)
    (s : σ) (body : Reader) (err : GoError)
    (hM : r.Method = "POST") (hK : r.Header.Get "x-file-name" ≠ "")
    (hB : r.Body = some body) (hE : body.err = GoError.EOF)
    (hU : (r2.Upload r.Ctx (r.Header.Get "x-file-name") body.bytes s).1 = some err) :
    uploadHandler r2 w r s =
      ⟨httpError w ("Error uploading media: " ++ err.Error) 500,
        [LogEntry.info ("Uploading " ++ r.Header.Get "x-file-name"),
          LogEntry.error ("Error uploading media: " ++ err.Error)],
        body.chunks.length + 1, [⟨r.Ctx, r.Header.Get "x-file-name", body.bytes⟩],
        (r2.Upload r.Ctx (r.Header.Get "x-file-name") body.bytes s).2⟩ := by
  cases hres : r2.Upload r.Ctx (r.Header.Get "x-file-name") body.bytes s with
  | mk e s1 =>
    rw [hres] at hU
    simp only at hU
    subst hU
    simp [uploadHandler, MethodPost, StatusInternalServerError, hM, hK, hB, ReadAll_eq, hE,
      hres]

theorem httpError_codes (w : ResponseWriter) (msg : String) (code : Nat) :
    (httpError w msg code).codes = w.codes ++ [code] := by
  simp [httpError, ResponseWriter.Fprintln, ResponseWriter.WriteHeader, ResponseWriter.Set,
    ResponseWriter.Del]

theorem httpError_body (w : ResponseWriter) (msg : String) (code : Nat) :
    (httpError w msg code).body = w.body ++ msg ++ "\n" := by
  simp [httpError, ResponseWriter.Fprintln, ResponseWriter.WriteHeader, ResponseWriter.Set,
    ResponseWriter.Del]

/-! ## The claims about the handler -/

/-- C2. A request whose method is not `POST`, whatever its headers and body,
is answered with the single status 405; the body is not read, `Upload` is not
called and the storage backend is left as it was. -/
theorem method_not_allowed {σ : Type} (r2 : R2 σ) (r : Request) (s : σ)
    (hM : r.Method ≠ "POST") :
    (serveUpload r2 r s).w.codes = [405] ∧
    (serveUpload r2 r s).uploads = [] ∧
    (serveUpload r2 r s).reads = 0 ∧
    (serveUpload r2 r s).store = s := by
  rw [serveUpload, handler_not_post r2 _ r s hM]
  simp [httpError_codes, ResponseWriter.new]

/-- Scenario 2 of the specification, `GET /upload`, here with a valid header
and a readable body. -/
theorem method_not_allowed_witness :
    "GET" ≠ "POST" ∧
    (serveUpload memoryR2
        ⟨"GET", [("X-File-Name", ["a.png"])], some ⟨[], [1, 2], .EOF⟩, ⟨0⟩⟩ []).w.codes = [405] ∧
    (serveUpload memoryR2
        ⟨"GET", [("X-File-Name", ["a.png"])], some ⟨[], [1, 2], .EOF⟩, ⟨0⟩⟩ []).uploads = [] ∧
    (serveUpload memoryR2
        ⟨"GET", [("X-File-Name", ["a.png"])], some ⟨[], [1, 2], .EOF⟩, ⟨0⟩⟩ []).reads = 0 ∧
    (serveUpload memoryR2
        ⟨"GET", [("X-File-Name", ["a.png"])], some ⟨[], [1, 2], .EOF⟩, ⟨0⟩⟩ []).store = [] :=
  ⟨by decide,
    method_not_allowed memoryR2
      ⟨"GET", [("X-File-Name", ["a.png"])], some ⟨[], [1, 2], .EOF⟩, ⟨0⟩⟩ [] (by decide)⟩

/-- C5. When a request passes the method, header and body checks, its body
reads to its end without error and `Upload` returns the error `e`, the handler
answers with the single status 500 (so 201 is not sent) and the response body
`Error uploading media: ` followed by the message of `e` and a newline, which
contains the message of `e`; `Upload` was called exactly once. -/
theorem upload_failure {σ : Type} (r2 : R2 σ) (r : Request) (s : σ) (k : String)
    (body : Reader) (e : GoError)
    (hM : r.Method = "POST") (hK : r.Header.Get "x-file-name" = k) (hk : k ≠ "")
    (hB : r.Body = some body) (hE : body.err = GoError.EOF)
    (hU : (r2.Upload r.Ctx k body.bytes s).1 = some e) :
    (serveUpload r2 r s).w.codes = [500] ∧
    (serveUpload r2 r s).w.body = "Error uploading media: " ++ e.Error ++ "\n" ∧
    containsText (serveUpload r2 r s).w.body e.Error ∧
    (serveUpload r2 r s).uploads = [⟨r.Ctx, k, body.bytes⟩] ∧
    (serveUpload r2 r s).uploads.length = 1 ∧
    201 ∉ (serveUpload r2 r s).w.codes := by
  subst hK
  rw [serveUpload, handler_upload_error r2 _ r s body e hM hk hB hE hU]
  simp only [httpError_codes, httpError_body, ResponseWriter.new]
  refine ⟨by simp, by simp, ⟨"Error uploading media: ", "\n", by simp⟩, by simp, by simp,
    by simp⟩

/-- Scenario 4 of the specification: `x-file-name: ok.txt` and a storage
client that rejects the upload with an authentication error. -/
theorem upload_failure_witness :
    (serveUpload (failingR2 (.other "authentication failed"))
        ⟨"POST", [("X-File-Name", ["ok.txt"])], some ⟨[], [104, 105], .EOF⟩, ⟨0⟩⟩
        []).w.codes = [500] ∧
    (serveUpload (failingR2 (.other "authentication failed"))
        ⟨"POST", [("X-File-Name", ["ok.txt"])], some ⟨[], [104, 105], .EOF⟩, ⟨0⟩⟩
        []).w.body = "Error uploading media: authentication failed\n" :=
  ⟨(upload_failure (failingR2 (.other "authentication failed"))
      ⟨"POST", [("X-File-Name", ["ok.txt"])], some ⟨[], [104, 105], .EOF⟩, ⟨0⟩⟩
      [] "ok.txt" ⟨[], [104, 105], .EOF⟩ (.other "authentication failed")
      (by decide) (by decide) (by decide) (by decide) (by decide) (by decide)).1,
    (upload_failure (failingR2 (.other "authentication failed"))
      ⟨"POST", [("X-File-Name", ["ok.txt"])], some ⟨[], [104, 105], .EOF⟩, ⟨0⟩⟩
      [] "ok.txt" ⟨[], [104, 105], .EOF⟩ (.other "authentication failed")
      (by decide) (by decide) (by decide) (by decide) (by decide) (by decide)).2.1⟩

/-- C6. When a POST request has a non-empty `x-file-name` header and a body
whose reading ends with an error `e` other than the end of the stream, whatever
was read before it, the handler answers with the single status 500 and the
response body `Error reading request body: ` followed by the message of `e`
and a newline, which contains the message of `e`; `Upload` is not called and
the storage backend is left as it was. -/
theorem body_read_failure {σ : Type} (r2 : R2 σ) (r : Request) (s : σ)
    (body : Reader) (e : GoError)
    (hM : r.Method = "POST") (hK : r.Header.Get "x-file-name" ≠ "")
    (hB : r.Body = some body) (hE : body.err = e) (he : e ≠ GoError.EOF) :
    (serveUpload r2 r s).w.codes = [500] ∧
    (serveUpload r2 r s).w.body = "Error reading request body: " ++ e.Error ++ "\n" ∧
    containsText (serveUpload r2 r s).w.body e.Error ∧
    (serveUpload r2 r s).uploads = [] ∧
    (serveUpload r2 r s).store = s := by
  subst hE
  rw [serveUpload, handler_read_error r2 _ r s body hM hK hB he]
  simp only [httpError_codes, httpError_body, ResponseWriter.new]
  refine ⟨by simp, by simp, ⟨"Error reading request body: ", "\n", by simp⟩, by simp, by simp⟩

/-- A body whose third read fails with `unexpected EOF` after five bytes were
delivered. -/
theorem body_read_failure_witness :
    (serveUpload memoryR2
        ⟨"POST", [("X-File-Name", ["a.png"])],
          some ⟨[[1, 2], [3, 4]], [5], .other "unexpected EOF"⟩, ⟨0⟩⟩
        []).w.codes = [500] ∧
    (serveUpload memoryR2
        ⟨"POST", [("X-File-Name", ["a.png"])],
          some ⟨[[1, 2], [3, 4]], [5], .other "unexpected EOF"⟩, ⟨0⟩⟩
        []).w.body = "Error reading request body: unexpected EOF\n" ∧
    (serveUpload memoryR2
        ⟨"POST", [("X-File-Name", ["a.png"])],
          some ⟨[[1, 2], [3, 4]], [5], .other "unexpected EOF"⟩, ⟨0⟩⟩
        []).uploads = [] :=
  ⟨(body_read_failure memoryR2
      ⟨"POST", [("X-File-Name", ["a.png"])],
        some ⟨[[1, 2], [3, 4]], [5], .other "unexpected EOF"⟩, ⟨0⟩⟩
      [] ⟨[[1, 2], [3, 4]], [5], .other "unexpected EOF"⟩ (.other "unexpected EOF")
      (by decide) (by decide) (by decide) (by decide) (by decide)).1,
    (body_read_failure memoryR2
      ⟨"POST", [("X-File-Name", ["a.png"])],
        some ⟨[[1, 2], [3, 4]], [5], .other "unexpected EOF"⟩, ⟨0⟩⟩
      [] ⟨[[1, 2], [3, 4]], [5], .other "unexpected EOF"⟩ (.other "unexpected EOF")
      (by decide) (by decide) (by decide) (by decide) (by decide)).2.1,
    (body_read_failure memoryR2
      ⟨"POST", [("X-File-Name", ["a.png"])],
        some ⟨[[1, 2], [3, 4]], [5], .other "unexpected EOF"⟩, ⟨0⟩⟩
      [] ⟨[[1, 2], [3, 4]], [5], .other "unexpected EOF"⟩ (.other "unexpected EOF")
      (by decide) (by decide) (by decide) (by decide) (by decide)).2.2.2.1⟩

/-- C3, as stated, fails: a `GET` request without an `x-file-name` header is
answered with 405, not with 400. -/
theorem missing_header_get_is_405 :
    Header.values (Request.Header ⟨"GET", [], some ⟨[], [104, 105], .EOF⟩, ⟨0⟩⟩) "X-File-Name" = [] ∧
    (serveUpload memoryR2 ⟨"GET", [], some ⟨[], [104, 105], .EOF⟩, ⟨0⟩⟩ []).w.codes = [405] ∧
    (serveUpload memoryR2 ⟨"GET", [], some ⟨[], [104, 105], .EOF⟩, ⟨0⟩⟩ []).w.codes ≠ [400] := by
  decide

/-- C3, amended. For a request whose `x-file-name` header is absent (no value
under the canonical key) or has the empty string as its first value, `Upload`
is never called and the body is never read; when the method is `POST` the
single status is 400, and otherwise it is 405. -/
theorem missing_header_rejected {σ : Type} (r2 : R2 σ) (r : Request) (s : σ)
    (hK : Header.values r.Header "X-File-Name" = [] ∨
      ∃ vs, Header.values r.Header "X-File-Name" = "" :: vs) :
    (serveUpload r2 r s).uploads = [] ∧
    (serveUpload r2 r s).reads = 0 ∧
    (serveUpload r2 r s).store = s ∧
    (r.Method = "POST" → (serveUpload r2 r s).w.codes = [400]) ∧
    (r.Method ≠ "POST" → (serveUpload r2 r s).w.codes = [405]) := by
  have hG : r.Header.Get "x-file-name" = "" := (Get_eq_empty_iff r.Header).mpr hK
  by_cases hM : r.Method = "POST"
  · rw [serveUpload, handler_no_key r2 _ r s hM hG]
    simp [httpError_codes, ResponseWriter.new, hM]
  · rw [serveUpload, handler_not_post r2 _ r s hM]
    simp [httpError_codes, ResponseWriter.new, hM]

/-- Scenario 3 of the specification (`POST`, no header, body `hello`), and a
`POST` whose header carries the empty string. -/
theorem missing_header_rejected_witness :
    (serveUpload memoryR2 ⟨"POST", [], some ⟨[], [104, 101, 108, 108, 111], .EOF⟩, ⟨0⟩⟩
        []).w.codes = [400] ∧
    (serveUpload memoryR2
        ⟨"POST", [("X-File-Name", [""])], some ⟨[], [104, 101, 108, 108, 111], .EOF⟩, ⟨0⟩⟩
        []).w.codes = [400] ∧
    (serveUpload memoryR2
        ⟨"POST", [("X-File-Name", [""])], some ⟨[], [104, 101, 108, 108, 111], .EOF⟩, ⟨0⟩⟩
        []).uploads = [] :=
  ⟨(missing_header_rejected memoryR2
      ⟨"POST", [], some ⟨[], [104, 101, 108, 108, 111], .EOF⟩, ⟨0⟩⟩ []
      (Or.inl (by decide))).2.2.2.1 (by decide),
    (missing_header_rejected memoryR2
      ⟨"POST", [("X-File-Name", [""])], some ⟨[], [104, 101, 108, 108, 111], .EOF⟩, ⟨0⟩⟩ []
      (Or.inr ⟨[], by decide⟩)).2.2.2.1 (by decide),
    (missing_header_rejected memoryR2
      ⟨"POST", [("X-File-Name", [""])], some ⟨[], [104, 101, 108, 108, 111], .EOF⟩, ⟨0⟩⟩ []
      (Or.inr ⟨[], by decide⟩)).1⟩

/-- C4, as stated, fails: a `GET` request with a nil body is answered with
405, not with 400. -/
theorem missing_body_get_is_405 :
    Request.Body ⟨"GET", [("X-File-Name", ["a.png"])], none, ⟨0⟩⟩ = none ∧
    (serveUpload memoryR2 ⟨"GET", [("X-File-Name", ["a.png"])], none, ⟨0⟩⟩ []).w.codes = [405] ∧
    (serveUpload memoryR2 ⟨"GET", [("X-File-Name", ["a.png"])], none, ⟨0⟩⟩ []).w.codes ≠
      [400] := by
  decide

/-- C4, amended. For a request whose body is nil, `Upload` is never called;
when the method is `POST` the single status is 400, and otherwise it is 405. -/
theorem missing_body_rejected {σ : Type} (r2 : R2 σ) (r : Request) (s : σ)
    (hB : r.Body = none) :
    (serveUpload r2 r s).uploads = [] ∧
    (serveUpload r2 r s).store = s ∧
    (r.Method = "POST" → (serveUpload r2 r s).w.codes = [400]) ∧
    (r.Method ≠ "POST" → (serveUpload r2 r s).w.codes = [405]) := by
  by_cases hM : r.Method = "POST"
  · by_cases hG : r.Header.Get "x-file-name" = ""
    · rw [serveUpload, handler_no_key r2 _ r s hM hG]
      simp [httpError_codes, ResponseWriter.new, hM]
    · rw [serveUpload, handler_no_body r2 _ r s hM hG hB]
      simp [httpError_codes, ResponseWriter.new, hM]
  · rw [serveUpload, handler_not_post r2 _ r s hM]
    simp [httpError_codes, ResponseWriter.new, hM]

/-- A `POST` with a valid header and a nil body, and one that also lacks the
header. -/
theorem missing_body_rejected_witness :
    (serveUpload memoryR2 ⟨"POST", [("X-File-Name", ["a.png"])], none, ⟨0⟩⟩ []).w.codes = [400] ∧
    (serveUpload memoryR2 ⟨"POST", [], none, ⟨0⟩⟩ []).w.codes = [400] ∧
    (serveUpload memoryR2 ⟨"POST", [("X-File-Name", ["a.png"])], none, ⟨0⟩⟩ []).uploads = [] :=
  ⟨(missing_body_rejected memoryR2 ⟨"POST", [("X-File-Name", ["a.png"])], none, ⟨0⟩⟩ []
      (by decide)).2.2.1 (by decide),
    (missing_body_rejected memoryR2 ⟨"POST", [], none, ⟨0⟩⟩ [] (by decide)).2.2.1 (by decide),
    (missing_body_rejected memoryR2 ⟨"POST", [("X-File-Name", ["a.png"])], none, ⟨0⟩⟩ []
      (by decide)).1⟩

/-- C7, as stated, fails: in scenario 3 of the specification (`POST`, no
header, body `hello`) the body text written is `Missing x-file-name header`
followed by a newline, which is not the string `Missing x-file-name header`;
likewise for a `POST` with a nil body and `Missing request body`. -/
theorem rejection_text_ends_with_newline :
    (serveUpload memoryR2 ⟨"POST", [], some ⟨[], [104, 101, 108, 108, 111], .EOF⟩, ⟨0⟩⟩
        []).w.body = "Missing x-file-name header\n" ∧
    (serveUpload memoryR2 ⟨"POST", [], some ⟨[], [104, 101, 108, 108, 111], .EOF⟩, ⟨0⟩⟩
        []).w.body ≠ "Missing x-file-name header" ∧
    (serveUpload memoryR2 ⟨"POST", [("X-File-Name", ["a.png"])], none, ⟨0⟩⟩
        []).w.body = "Missing request body\n" ∧
    (serveUpload memoryR2 ⟨"POST", [("X-File-Name", ["a.png"])], none, ⟨0⟩⟩
        []).w.body ≠ "Missing request body" := by
  decide

/-- C7, amended. The response body of the 400 rejection for a missing or empty
`x-file-name` header is the text `Missing x-file-name header` followed by one
newline, and that of the 400 rejection for a missing request body is the text
`Missing request body` followed by one newline; both are sent as plain text
(`Content-Type: text/plain; charset=utf-8`). -/
theorem rejection_texts {σ : Type} (r2 : R2 σ) (r : Request) (s : σ)
    (hM : r.Method = "POST") :
    (r.Header.Get "x-file-name" = "" →
      (serveUpload r2 r s).w.codes = [400] ∧
      (serveUpload r2 r s).w.body = "Missing x-file-name header" ++ "\n" ∧
      ("Content-Type", "text/plain; charset=utf-8") ∈ (serveUpload r2 r s).w.header) ∧
    (r.Header.Get "x-file-name" ≠ "" → r.Body = none →
      (serveUpload r2 r s).w.codes = [400] ∧
      (serveUpload r2 r s).w.body = "Missing request body" ++ "\n" ∧
      ("Content-Type", "text/plain; charset=utf-8") ∈ (serveUpload r2 r s).w.header) := by
  constructor
  · intro hG
    rw [serveUpload, handler_no_key r2 _ r s hM hG]
    refine ⟨by simp [httpError_codes, ResponseWriter.new],
      by simp [httpError_body, ResponseWriter.new], ?_⟩
    simp [httpError, ResponseWriter.Fprintln, ResponseWriter.WriteHeader, ResponseWriter.Set,
      ResponseWriter.Del, ResponseWriter.new]
  · intro hG hB
    rw [serveUpload, handler_no_body r2 _ r s hM hG hB]
    refine ⟨by simp [httpError_codes, ResponseWriter.new],
      by simp [httpError_body, ResponseWriter.new], ?_⟩
    simp [httpError, ResponseWriter.Fprintln, ResponseWriter.WriteHeader, ResponseWriter.Set,
      ResponseWriter.Del, ResponseWriter.new]

/-- Scenario 3 of the specification, and a `POST` with a valid header and a
nil body. -/
theorem rejection_texts_witness :
    (serveUpload memoryR2 ⟨"POST", [], some ⟨[], [104, 101, 108, 108, 111], .EOF⟩, ⟨0⟩⟩
        []).w.body = "Missing x-file-name header" ++ "\n" ∧
    (serveUpload memoryR2 ⟨"POST", [("X-File-Name", ["a.png"])], none, ⟨0⟩⟩
        []).w.body = "Missing request body" ++ "\n" :=
  ⟨((rejection_texts memoryR2 ⟨"POST", [], some ⟨[], [104, 101, 108, 108, 111], .EOF⟩, ⟨0⟩⟩ []
      (by decide)).1 (by decide)).2.1,
    ((rejection_texts memoryR2 ⟨"POST", [("X-File-Name", ["a.png"])], none, ⟨0⟩⟩ []
      (by decide)).2 (by decide) (by decide)).2.1⟩

/-! ## Startup -/

/-- C8, as stated, fails: for the configuration with the default bind address
and four empty credentials, `main` calls `NewR2` with the empty credentials,
whether the constructor accepts or rejects them; when it accepts, the handler
is registered, the server listens and the process does not exit. -/
theorem empty_credentials_reach_NewR2 :
    defaultConfig.hasEmptyCredential = true ∧
    (main (Except.ok defaultConfig) (fun _ _ _ _ => (Except.ok () : Except GoError Unit))
        (fun _ => none)).any StartupEvent.isNewR2WithEmptyCredential = true ∧
    StartupEvent.newR2 "" "" "" "" ∈
      main (Except.ok defaultConfig) (fun _ _ _ _ => (Except.ok () : Except GoError Unit))
        (fun _ => none) ∧
    StartupEvent.newR2 "" "" "" "" ∈
      main (Except.ok defaultConfig)
        (fun _ _ _ _ => (Except.error (.other "missing credentials") : Except GoError Unit))
        (fun _ => none) ∧
    main (Except.ok defaultConfig) (fun _ _ _ _ => (Except.ok () : Except GoError Unit))
        (fun _ => none) =
      [StartupEvent.log (LogEntry.info "Starting..."),
        StartupEvent.newR2 "" "" "" "",
        StartupEvent.handleFunc "/upload",
        StartupEvent.log (LogEntry.info "Listening on localhost:8789"),
        StartupEvent.listenAndServe "localhost:8789"] := by
  decide

/-- C8, amended. `main` does not validate the credentials itself: once the
flags are parsed it calls `NewR2` exactly once, with the four parsed values
unchanged, empty or not. Startup fails fatally exactly when flag parsing or
`NewR2` returns an error, and then the process exits with no handler registered
and no server started (after a parse error without calling `NewR2` at all);
when `NewR2` succeeds, the `/upload` handler is registered and the server
listens on the bind address. So a configuration with an empty credential stops
startup if and only if `NewR2` rejects it. -/
theorem startup_sequence {ρ : Type} (cfg : appConfig)
    (NewR2 : String → String → String → String → Except GoError ρ)
    (listen : String → Option GoError) :
    (main (Except.ok cfg) NewR2 listen).filter StartupEvent.isNewR2 =
      [StartupEvent.newR2 cfg.R2AccountID cfg.R2AccessKeyID cfg.R2AccessKeySecret
        cfg.R2Bucket] ∧
    (∀ e, NewR2 cfg.R2AccountID cfg.R2AccessKeyID cfg.R2AccessKeySecret cfg.R2Bucket =
        Except.error e →
      main (Except.ok cfg) NewR2 listen =
        [StartupEvent.log (LogEntry.info "Starting..."),
          StartupEvent.newR2 cfg.R2AccountID cfg.R2AccessKeyID cfg.R2AccessKeySecret
            cfg.R2Bucket,
          StartupEvent.log (LogEntry.fatal ("Error creating R2: " ++ e.Error)),
          StartupEvent.exit 1]) ∧
    (∀ c, NewR2 cfg.R2AccountID cfg.R2AccessKeyID cfg.R2AccessKeySecret cfg.R2Bucket =
        Except.ok c →
      (main (Except.ok cfg) NewR2 listen).take 5 =
        [StartupEvent.log (LogEntry.info "Starting..."),
          StartupEvent.newR2 cfg.R2AccountID cfg.R2AccessKeyID cfg.R2AccessKeySecret
            cfg.R2Bucket,
          StartupEvent.handleFunc "/upload",
          StartupEvent.log (LogEntry.info ("Listening on " ++ cfg.Bind)),
          StartupEvent.listenAndServe cfg.Bind]) ∧
    (∀ e, main (Except.error e) NewR2 listen =
        [StartupEvent.log (LogEntry.info "Starting..."),
          StartupEvent.log (LogEntry.fatal ("Error parsing flags: " ++ e.Error)),
          StartupEvent.exit 1]) := by
  refine ⟨?_, ?_, ?_, ?_⟩
  · cases hN : NewR2 cfg.R2AccountID cfg.R2AccessKeyID cfg.R2AccessKeySecret cfg.R2Bucket with
    | error e => simp [main, hN, Fatalf, StartupEvent.isNewR2, List.filter]
    | ok c =>
      cases hL : listen cfg.Bind with
      | none => simp [main, hN, hL, StartupEvent.isNewR2, List.filter]
      | some e => simp [main, hN, hL, Fatalf, StartupEvent.isNewR2, List.filter]
  · intro e hN
    simp [main, hN, Fatalf]
  · intro c hN
    cases hL : listen cfg.Bind with
    | none => simp [main, hN, hL]
    | some e => simp [main, hN, hL, Fatalf]
  · intro e
    simp [main, Fatalf]

/-- The configuration without credentials against a constructor that rejects
it: the process exits after the call of `NewR2`, before any handler is
registered. -/
theorem startup_sequence_witness :
    main (Except.ok defaultConfig)
        (fun _ _ _ _ => (Except.error (.other "missing credentials") : Except GoError Unit))
        (fun _ => none) =
      [StartupEvent.log (LogEntry.info "Starting..."),
        StartupEvent.newR2 "" "" "" "",
        StartupEvent.log (LogEntry.fatal ("Error creating R2: " ++ "missing credentials")),
        StartupEvent.exit 1] :=
  (startup_sequence defaultConfig
    (fun _ _ _ _ => (Except.error (.other "missing credentials") : Except GoError Unit))
    (fun _ => none)).2.1 (.other "missing credentials") rfl

/-! ## Order of the checks and complete characterisation -/

end R2Upload
